import Mathlib

/-!
Verification of the control-loop coordination layer of
`src/include/pmacc/simulationControl/SimulationHelper.hpp`.

The C++ class `SimulationHelper` is embedded shallowly: its member state
becomes the structure `SimState`, and its member functions become pure
state-transition functions.  External effects are made explicit:

* the POSIX-signal queries `signal::received()`, `signal::createCheckpoint()`
  and `signal::stopSimulation()` become the input record `SignalInput`;
* the non-blocking `MPI_Iallreduce` with `MPI_MAX` is modelled by recording
  the launched request (field `signalMPI`) and by passing the completed
  reduction result (the maximum over all ranks' proposals, see `roundMax`)
  as the parameter `reducedMax` at the step where the code polls the request;
* filesystem effects (`createDirectoryWithPermissions`, the checkpoint
  master file) become counters and lists inside the state, and the
  `std::runtime_error` thrown by `writeCheckpointStep` becomes `Except`.
-/

namespace PMacc

/-- Modelled from the spec: the Period Scheduler's interval type is missing
from src/ (`pmacc/pluginSystem/toTimeSlice.hpp`).  The spec describes a
`CheckpointPeriod` as "an ordered set of disjoint step intervals (each:
start step, end step, optional stride)".  `TimeSlice(a, b)` in the source
builds the degenerate interval with stride 1. -/
structure TimeSlice where
  start : Nat
  stop : Nat
  period : Nat := 1
  deriving Repr, DecidableEq

/-- Modelled from the spec: membership of one interval.  A step is inside a
slice when it lies between start and end and hits the stride. -/
def sliceContains (ts : TimeSlice) (step : Nat) : Bool :=
  decide (ts.start ≤ step) && decide (step ≤ ts.stop)
    && decide ((step - ts.start) % ts.period = 0)

/-- Modelled from the spec: `pluginSystem::containsStep` is missing from
src/ (`pmacc/pluginSystem/containsStep.hpp`).  The spec:
"`contains(period, step)` is a pure, side-effect-free membership test,
O(number of intervals)"; it treats an empty period as "never due". -/
def containsStep (seq : List TimeSlice) (step : Nat) : Bool :=
  seq.any (fun ts => sliceContains ts step)

/-- The three process-local queries of `pmacc/simulationControl/signal.hpp`
consulted by `checkSignals`: `signal::received()`,
`signal::createCheckpoint()`, `signal::stopSimulation()`. -/
structure SignalInput where
  received : Bool
  createCheckpoint : Bool
  stopSimulation : Bool
  deriving Repr, DecidableEq

/-- The member state of `SimulationHelper` that the control-loop claims are
about, plus an explicit model of the filesystem effects.

* `runSteps` mirrors `SimulationDescription().getRunSteps()` (the run target);
  `checkSignals` writes it via `setRunSteps`.
* `signalMPI = some p` models a launched, still in-flight `MPI_Iallreduce`
  whose send buffer on this rank holds the proposal `p`
  (`MPI_REQUEST_NULL` is `none`).
* `dirCreated` counts calls to `createDirectoryWithPermissions`.
* `masterLog` is the contents of the checkpoint master file;
  `logWritable` models whether that file can be opened for append.
* `isRoot` is `getGlobalRank() == 0`. -/
structure SimState where
  runSteps : Nat
  checkpointPeriod : String
  seqCheckpointPeriod : List TimeSlice
  numCheckpoints : Nat
  signalMaxTimestep : Nat
  handleSignalAtStep : Nat
  signalMPI : Option Nat
  signalCreateCheckpoint : Bool
  signalStopSimulation : Bool
  isRoot : Bool
  dirCreated : Nat
  masterLog : List Nat
  logWritable : Bool
  deriving Repr, DecidableEq

/-- The guard computed at the top of `checkSignals`:
`bool const handleSignals = handleSignalAtStep < currentStep || currentStep == 0u;`. -/
def handleSignalsAllowed (st : SimState) (currentStep : Nat) : Bool :=
  decide (st.handleSignalAtStep < currentStep) || decide (currentStep = 0)

/-- The first block of `SimulationHelper::checkSignals`
(SimulationHelper.hpp:429-474): when handling is permitted and a signal is
pending, set `handleSignalAtStep = currentStep + 1`, launch the
`MPI_Iallreduce` with `MPI_MAX` over `handleSignalAtStep` (recorded in
`signalMPI`), and latch the requested actions into
`signalCreateCheckpoint` / `signalStopSimulation`. -/
def observeSignal (currentStep : Nat) (sig : SignalInput) (st : SimState) : SimState :=
  if handleSignalsAllowed st currentStep && sig.received then
    let sta := { st with handleSignalAtStep := currentStep + 1 }
    let stb := { sta with signalMPI := some sta.handleSignalAtStep }
    let stc :=
      if sig.createCheckpoint then { stb with signalCreateCheckpoint := true } else stb
    if sig.stopSimulation then { stc with signalStopSimulation := true } else stc
  else st

/-- The body of the second block of `SimulationHelper::checkSignals`
(SimulationHelper.hpp:480-506): wait for the reduction (its completed result
is the parameter `reducedMax`, stored into `signalMaxTimestep`), then
translate the latched flags into actions: append the one-step slice at
`signalMaxTimestep`, and/or `setRunSteps(signalMaxTimestep)`. -/
def applySignalActions (reducedMax : Nat) (st : SimState) : SimState :=
  let st2 := { st with signalMaxTimestep := reducedMax, signalMPI := none }
  let st3 :=
    if st2.signalCreateCheckpoint then
      { st2 with
        signalCreateCheckpoint := false
        seqCheckpointPeriod := st2.seqCheckpointPeriod
          ++ [{ start := st2.signalMaxTimestep, stop := st2.signalMaxTimestep }] }
    else st2
  if st3.signalStopSimulation then
    { st3 with signalStopSimulation := false, runSteps := st3.signalMaxTimestep }
  else st3

/-- `SimulationHelper::checkSignals` (SimulationHelper.hpp:424-508): the
observation block, followed by the apply block guarded by
`currentStep != 0u && handleSignalAtStep == currentStep`. -/
def checkSignals (currentStep : Nat) (sig : SignalInput) (reducedMax : Nat)
    (st : SimState) : SimState :=
  let st1 := observeSignal currentStep sig st
  if currentStep ≠ 0 ∧ st1.handleSignalAtStep = currentStep then
    applySignalActions reducedMax st1
  else st1

/-- The completed `MPI_Iallreduce(..., MPI_MAX, ...)`: the maximum over all
participating ranks' send buffers. -/
def roundMax (proposals : List Nat) : Nat :=
  proposals.foldr max 0

/-- One consensus round on a stop signal: every rank that handles the signal
at local step `c` proposes `c + 1` (the value `checkSignals` stores in
`handleSignalAtStep`), and the agreed value is the maximum proposal, which
`checkSignals` installs as the new run target. -/
def stopRound (signalSteps : List Nat) : Nat :=
  roundMax (signalSteps.map (fun c => c + 1))

/-- Iterating stop rounds: the run target after a sequence of rounds, where
round `k` is described by the list of local steps at which the ranks handled
the signal. -/
def runRounds : Nat → List (List Nat) → Nat
  | r, [] => r
  | _, round :: rest => runRounds (stopRound round) rest

/-- The hypothesis under which a round cannot raise the target: every rank
handled the signal strictly before the current run target. -/
def validRounds : Nat → List (List Nat) → Prop
  | _, [] => True
  | r, round :: rest => (∀ s ∈ round, s < r) ∧ validRounds (stopRound round) rest

/-- The checkpoint-due test at the head of `dumpOneStep`
(SimulationHelper.hpp:152):
`!checkpointPeriod.empty() && pluginSystem::containsStep(seqCheckpointPeriod, currentStep)`.
Note the first conjunct tests the textual period `checkpointPeriod`, not the
interval list `seqCheckpointPeriod`. -/
def checkpointDue (st : SimState) (currentStep : Nat) : Bool :=
  !st.checkpointPeriod.isEmpty && containsStep st.seqCheckpointPeriod currentStep

/-- `SimulationHelper::writeCheckpointStep` (SimulationHelper.hpp:531-543):
append the step to the master file, throwing
`std::runtime_error("Failed to write checkpoint master file")` when the file
cannot be opened for writing. -/
def writeCheckpointStep (checkpointStep : Nat) (st : SimState) :
    Except String SimState :=
  if st.logWritable then
    Except.ok { st with masterLog := st.masterLog ++ [checkpointStep] }
  else
    Except.error "Failed to write checkpoint master file"

/-- `SimulationHelper::dumpOneStep` (SimulationHelper.hpp:149-194).  When the
step is due: create the checkpoint directory if `numCheckpoints == 0`, run
the checkpoint plugins (external hook), then on the global root rank only
append to the master file — a write failure propagates as the thrown
exception — and finally increment `numCheckpoints`. -/
def dumpOneStep (currentStep : Nat) (st : SimState) : Except String SimState :=
  if checkpointDue st currentStep then
    let st1 :=
      if st.numCheckpoints = 0 then { st with dirCreated := st.dirCreated + 1 } else st
    match (if st1.isRoot then writeCheckpointStep currentStep st1 else Except.ok st1) with
    | Except.error e => Except.error e
    | Except.ok st2 => Except.ok { st2 with numCheckpoints := st2.numCheckpoints + 1 }
  else
    Except.ok st

/-- The checkpoint part of the main loop: `dumpOneStep` invoked at a sequence
of consecutive current steps (SimulationHelper.hpp:277-298); an exception
from any step aborts the run. -/
def runDump : List Nat → SimState → Except String SimState
  | [], st => Except.ok st
  | c :: rest, st =>
    match dumpOneStep c st with
    | Except.error e => Except.error e
    | Except.ok st1 => runDump rest st1

/-- Model of `boost::lexical_cast<uint32_t>` on one line of the master file:
succeeds exactly on a full-string decimal numeral whose value fits in a
`uint32_t`; anything else throws `bad_lexical_cast` (here: `none`). -/
def parseUInt32 (line : String) : Option Nat :=
  if line.data ≠ [] ∧ line.data.all Char.isDigit then
    let n := line.data.foldl (fun acc c => acc * 10 + (c.toNat - 48)) 0
    if n < 2 ^ 32 then some n else none
  else none

/-- The line loop of `SimulationHelper::readCheckpointMasterFile`
(SimulationHelper.hpp:563-579): an empty line is skipped (`continue`), a
parseable line is pushed onto the result, and a `bad_lexical_cast` prints a
warning and continues.  Returns the collected steps in file order together
with the number of warnings printed. -/
def readLines : List String → List Nat × Nat
  | [] => ([], 0)
  | line :: rest =>
    let r := readLines rest
    if line.isEmpty then r
    else
      match parseUInt32 line with
      | some n => (n :: r.1, r.2)
      | none => (r.1, r.2 + 1)

/-- `SimulationHelper::readCheckpointMasterFile` (SimulationHelper.hpp:551-580):
`none` models a missing master file (`boost::filesystem::exists` is false), in
which case the empty vector is returned without touching the file; otherwise
the file's lines are processed by the line loop. -/
def readCheckpointMasterFile (file : Option (List String)) : List Nat × Nat :=
  match file with
  | none => ([], 0)
  | some lines => readLines lines

/-- The clamp at the head of `SimulationHelper::calcProgress`
(SimulationHelper.hpp:517-518): `if(progress == 0 || progress > 100) progress = 100;`. -/
def clampProgress (progress : Nat) : Nat :=
  if progress = 0 ∨ 100 < progress then 100 else progress

/-- The final fix-up of `calcProgress` (SimulationHelper.hpp:522-523):
`if(showProgressAnyStep == 0) showProgressAnyStep = 1;` — applied to whatever
raw stride the preceding arithmetic produced. -/
def fixupStride (raw : Nat) : Nat :=
  if raw = 0 then 1 else raw

/-- `SimulationHelper::calcProgress` (SimulationHelper.hpp:515-524), returning
the resulting `showProgressAnyStep`.  The C++ computes the raw stride as
`uint32_t(double(runSteps) / 100. * double(progress))`; the double arithmetic
is modelled by natural division `runSteps * progress / 100` (the claims proved
below depend only on the clamp and the final fix-up, which apply to any raw
value — see the quantification over `raw` in the theorem). -/
def calcProgress (progress : Nat) (runSteps : Nat) : Nat :=
  fixupStride (runSteps * clampProgress progress / 100)

/-- The printing condition of `SimulationHelper::dumpTimes`
(SimulationHelper.hpp:204): `output && progress && (currentStep % showProgressAnyStep) == 0`,
with `progress` (a `uint16_t`) used as a boolean. -/
def dumpTimesPrints (output : Bool) (progress : Nat) (showProgressAnyStep : Nat)
    (currentStep : Nat) : Bool :=
  output && decide (progress ≠ 0) && decide (currentStep % showProgressAnyStep = 0)

/-! ### Concrete states used by counterexamples and witnesses -/

/-- Claim C1 counterexample state: a run configured with an empty checkpoint-period
string; a signal-requested checkpoint decision is latched for apply at
step 3 with agreed step 5. -/
def stC1 : SimState :=
  { runSteps := 10, checkpointPeriod := "", seqCheckpointPeriod := [],
    numCheckpoints := 0, signalMaxTimestep := 0, handleSignalAtStep := 3,
    signalMPI := some 3, signalCreateCheckpoint := true,
    signalStopSimulation := false, isRoot := true, dirCreated := 0,
    masterLog := [], logWritable := true }

/-- Claim C2 counterexample state: run target 2; this rank handled a stop signal at
step 1 (proposal 2, latched for apply at step 2) while another rank handled
it at step 2, its last loop iteration (proposal 3). -/
def stC2 : SimState :=
  { runSteps := 2, checkpointPeriod := "", seqCheckpointPeriod := [],
    numCheckpoints := 0, signalMaxTimestep := 0, handleSignalAtStep := 2,
    signalMPI := some 2, signalCreateCheckpoint := false,
    signalStopSimulation := true, isRoot := true, dirCreated := 0,
    masterLog := [], logWritable := true }

/-- Claim C3 counterexample state: a non-root rank completing the checkpoint due at
step 5, with one checkpoint already completed earlier. -/
def stC3 : SimState :=
  { runSteps := 10, checkpointPeriod := "5", 
    seqCheckpointPeriod := [{ start := 5, stop := 5, period := 1 }],
    numCheckpoints := 1, signalMaxTimestep := 0, handleSignalAtStep := 0,
    signalMPI := none, signalCreateCheckpoint := false,
    signalStopSimulation := false, isRoot := false, dirCreated := 1,
    masterLog := [], logWritable := true }

/-- A concrete healthy run state used to instantiate the theorems: target 10
steps, checkpoint period "3" parsed to the interval 0..9 stride 3, root
rank, writable log. -/
def sampleState : SimState :=
  { runSteps := 10, checkpointPeriod := "3",
    seqCheckpointPeriod := [{ start := 0, stop := 9, period := 3 }],
    numCheckpoints := 0, signalMaxTimestep := 0, handleSignalAtStep := 0,
    signalMPI := none, signalCreateCheckpoint := false,
    signalStopSimulation := false, isRoot := true, dirCreated := 0,
    masterLog := [], logWritable := true }

/-! ### Helper lemmas -/

theorem roundMax_le {l : List Nat} {r : Nat} (h : ∀ x ∈ l, x ≤ r) : roundMax l ≤ r := by
  induction l with
  | nil => exact Nat.zero_le r
  | cons a t ih =>
    simp only [roundMax, List.foldr_cons]
    exact max_le (h a (List.mem_cons_self a t)) (ih fun x hx => h x (List.mem_cons_of_mem a hx))

theorem roundMax_perm {l₁ l₂ : List Nat} (p : l₁.Perm l₂) : roundMax l₁ = roundMax l₂ :=
  p.foldr_eq 0

theorem parseUInt32_nonempty {l : String} {x : Nat} (h : parseUInt32 l = some x) :
    l.isEmpty = false := by
  cases hE : l.isEmpty with
  | false => rfl
  | true =>
    rw [String.isEmpty_iff] at hE
    subst hE
    have hnone : parseUInt32 (String.mk []) = none := by decide
    rw [hnone] at h
    cases h

theorem dumpOneStep_due {st : SimState} {c : Nat} (hdue : checkpointDue st c = true)
    (hw : st.logWritable = true) :
    dumpOneStep c st = Except.ok
      { st with
        dirCreated := if st.numCheckpoints = 0 then st.dirCreated + 1 else st.dirCreated
        masterLog := if st.isRoot then st.masterLog ++ [c] else st.masterLog
        numCheckpoints := st.numCheckpoints + 1 } := by
  unfold dumpOneStep
  rw [if_pos hdue]
  by_cases h0 : st.numCheckpoints = 0 <;>
    cases hR : st.isRoot <;>
      simp [h0, hR, writeCheckpointStep, hw]

theorem dumpOneStep_notdue {st : SimState} {c : Nat} (hdue : checkpointDue st c = false) :
    dumpOneStep c st = Except.ok st := by
  unfold dumpOneStep
  rw [if_neg]
  simp [hdue]

theorem checkpointDue_eta (st : SimState) (d : Nat) (m : List Nat) (n : Nat) (c : Nat) :
    checkpointDue { st with dirCreated := d, masterLog := m, numCheckpoints := n } c
      = checkpointDue st c := rfl

theorem runDump_cons_ok {c : Nat} {rest : List Nat} {st st1 : SimState}
    (h : dumpOneStep c st = Except.ok st1) :
    runDump (c :: rest) st = runDump rest st1 := by
  rw [runDump, h]

theorem runDump_spec (steps : List Nat) (st : SimState) (hw : st.logWritable = true) :
    runDump steps st = Except.ok
      { st with
        dirCreated := st.dirCreated
          + (if st.numCheckpoints = 0 ∧ 0 < steps.countP (fun c => checkpointDue st c)
             then 1 else 0)
        masterLog := st.masterLog
          ++ (if st.isRoot then steps.filter (fun c => checkpointDue st c) else [])
        numCheckpoints := st.numCheckpoints + steps.countP (fun c => checkpointDue st c) } := by
  induction steps generalizing st with
  | nil => simp [runDump]
  | cons c rest ih =>
    cases hdue : checkpointDue st c with
    | false =>
      rw [runDump_cons_ok (dumpOneStep_notdue hdue)]
      rw [ih st hw]
      simp [List.countP_cons, List.filter_cons, hdue]
    | true =>
      rw [runDump_cons_ok (dumpOneStep_due hdue hw)]
      rw [ih { st with
          dirCreated := if st.numCheckpoints = 0 then st.dirCreated + 1 else st.dirCreated
          masterLog := if st.isRoot then st.masterLog ++ [c] else st.masterLog
          numCheckpoints := st.numCheckpoints + 1 } hw]
      simp only [checkpointDue_eta, List.countP_cons, List.filter_cons, hdue]
      cases hR : st.isRoot <;> cases h0 : st.numCheckpoints <;>
        simp_all [SimState.mk.injEq, List.append_assoc] <;> omega

theorem observeSignal_skip {st : SimState} {c : Nat} {sig : SignalInput}
    (h : (handleSignalsAllowed st c && sig.received) = false) :
    observeSignal c sig st = st := by
  simp [observeSignal, h]

theorem observeSignal_take {st : SimState} {c : Nat} {sig : SignalInput}
    (h1 : handleSignalsAllowed st c = true) (h2 : sig.received = true) :
    observeSignal c sig st
      = { st with
          handleSignalAtStep := c + 1
          signalMPI := some (c + 1)
          signalCreateCheckpoint :=
            if sig.createCheckpoint then true else st.signalCreateCheckpoint
          signalStopSimulation :=
            if sig.stopSimulation then true else st.signalStopSimulation } := by
  cases hck : sig.createCheckpoint <;> cases hstop : sig.stopSimulation <;>
    simp [observeSignal, h1, h2, hck, hstop]

theorem applySignalActions_runSteps {st : SimState} {r : Nat}
    (h : st.signalStopSimulation = true) :
    (applySignalActions r st).runSteps = r := by
  cases hck : st.signalCreateCheckpoint <;> simp [applySignalActions, h, hck]

theorem applySignalActions_seq {st : SimState} {r : Nat}
    (h : st.signalCreateCheckpoint = true) :
    (applySignalActions r st).seqCheckpointPeriod
      = st.seqCheckpointPeriod ++ [{ start := r, stop := r, period := 1 }] := by
  cases hstop : st.signalStopSimulation <;> simp [applySignalActions, h, hstop]

theorem applySignalActions_period {st : SimState} {r : Nat} :
    (applySignalActions r st).checkpointPeriod = st.checkpointPeriod := by
  cases hck : st.signalCreateCheckpoint <;> cases hstop : st.signalStopSimulation <;>
    simp [applySignalActions, hck, hstop]

theorem checkSignals_applies {st : SimState} {c : Nat} {sig : SignalInput} {rmax : Nat}
    (hrec : sig.received = false) (hc : c ≠ 0) (hat : st.handleSignalAtStep = c) :
    checkSignals c sig rmax st = applySignalActions rmax st := by
  have hobs : observeSignal c sig st = st := observeSignal_skip (by simp [hrec])
  simp [checkSignals, hobs, hc, hat]

theorem sliceContains_degenerate (s : Nat) :
    sliceContains { start := s, stop := s, period := 1 } s = true := by
  simp [sliceContains, Nat.sub_self]

theorem containsStep_append_left {seq seq2 : List TimeSlice} {t : Nat}
    (h : containsStep seq t = true) : containsStep (seq ++ seq2) t = true := by
  simp only [containsStep, List.any_append, Bool.or_eq_true]
  exact Or.inl h

/-- Claim C5: signal handling is permitted exactly at step 0 or strictly after the
last scheduled apply step; at any other step a pending signal is dropped:
`checkSignals` behaves exactly as if no signal were pending (no new round is
launched, no signal state changes, and no error is produced). -/
theorem signal_race_drop_silent :
    ∀ (st : SimState) (c : Nat) (sig : SignalInput) (rmax : Nat),
      (handleSignalsAllowed st c = true ↔ (c = 0 ∨ st.handleSignalAtStep < c)) ∧
      (handleSignalsAllowed st c = false →
        checkSignals c sig rmax st
          = checkSignals c
              { received := false, createCheckpoint := false, stopSimulation := false }
              rmax st) := by
  intro st c sig rmax
  constructor
  · simp [handleSignalsAllowed, or_comm]
  · intro h
    have hobs1 : observeSignal c sig st = st := observeSignal_skip (by simp [h])
    have hobs2 : observeSignal c
        { received := false, createCheckpoint := false, stopSimulation := false } st = st :=
      observeSignal_skip (by simp)
    simp [checkSignals, hobs1, hobs2]

/-- Claim C4: handling a pending signal from the idle state at step `c` proposes
apply-at step `c + 1` (never `c`) and launches the maximum reduction with
that proposal; the reduction result is order-independent, and the decision is
later applied (run-target truncation, one-step checkpoint interval) using the
reduced maximum value. -/
theorem proposal_plus_one_and_max_reduction :
    ∀ (st : SimState) (c : Nat) (sig : SignalInput) (rmax : Nat),
      handleSignalsAllowed st c = true → sig.received = true →
      ((checkSignals c sig rmax st).handleSignalAtStep = c + 1 ∧ c + 1 ≠ c ∧
       (checkSignals c sig rmax st).signalMPI = some (c + 1)) ∧
      (∀ l₁ l₂ : List Nat, l₁.Perm l₂ → roundMax l₁ = roundMax l₂) ∧
      (∀ (st₂ : SimState) (props : List Nat),
        st₂.handleSignalAtStep = c + 1 → st₂.signalStopSimulation = true →
        (checkSignals (c + 1)
            { received := false, createCheckpoint := false, stopSimulation := false }
            (roundMax props) st₂).runSteps = roundMax props) ∧
      (∀ (st₂ : SimState) (props : List Nat),
        st₂.handleSignalAtStep = c + 1 → st₂.signalCreateCheckpoint = true →
        (checkSignals (c + 1)
            { received := false, createCheckpoint := false, stopSimulation := false }
            (roundMax props) st₂).seqCheckpointPeriod
          = st₂.seqCheckpointPeriod
            ++ [{ start := roundMax props, stop := roundMax props, period := 1 }]) := by
  intro st c sig rmax h1 h2
  refine ⟨?_, ?_, ?_, ?_⟩
  · have hobs := observeSignal_take h1 h2
    have hne : ¬(c ≠ 0 ∧ (observeSignal c sig st).handleSignalAtStep = c) := by
      rw [hobs]
      intro hand
      exact Nat.succ_ne_self c hand.2
    rw [checkSignals]
    simp only [hne, if_false]
    rw [hobs]
    exact ⟨rfl, Nat.succ_ne_self c, rfl⟩
  · exact fun l₁ l₂ p => roundMax_perm p
  · intro st₂ props hat hstop
    rw [checkSignals_applies rfl (Nat.succ_ne_zero c) hat]
    exact applySignalActions_runSteps hstop
  · intro st₂ props hat hck
    rw [checkSignals_applies rfl (Nat.succ_ne_zero c) hat]
    exact applySignalActions_seq hck

/-- Claim C1 (amended): when the configured textual checkpoint period is non-empty,
applying a checkpoint decision at the agreed step `s` appends the one-step
interval at `s`, after which the checkpoint-due evaluation at `s` returns
true and every previously-due step remains due. -/
theorem signalCheckpoint_due_after_append :
    ∀ (st : SimState) (c s : Nat),
      st.checkpointPeriod.isEmpty = false →
      st.signalCreateCheckpoint = true →
      st.handleSignalAtStep = c → c ≠ 0 →
      checkpointDue
          (checkSignals c
            { received := false, createCheckpoint := false, stopSimulation := false }
            s st) s = true ∧
      (∀ t, checkpointDue st t = true →
        checkpointDue
          (checkSignals c
            { received := false, createCheckpoint := false, stopSimulation := false }
            s st) t = true) := by
  intro st c s hper hck hat hc
  rw [checkSignals_applies rfl hc hat]
  have hseq := @applySignalActions_seq st s hck
  have hstr : (applySignalActions s st).checkpointPeriod = st.checkpointPeriod :=
    applySignalActions_period
  constructor
  · rw [checkpointDue, hstr, hper, hseq]
    simp only [Bool.not_false, Bool.true_and]
    simp [containsStep, sliceContains_degenerate]
  · intro t ht
    rw [checkpointDue, hstr, hper, hseq]
    rw [checkpointDue, hper] at ht
    simp only [Bool.not_false, Bool.true_and] at ht ⊢
    exact containsStep_append_left ht

/-- Claim C1 is false as stated: the apply block appends the one-step interval
at the agreed step 5, yet the checkpoint-due evaluation of `dumpOneStep` at
step 5 returns false, because it guards on the textual `checkpointPeriod`
being non-empty rather than on the interval list. -/
theorem signalCheckpoint_emptyPeriod_counterexample :
    stC1.signalCreateCheckpoint = true ∧
    (checkSignals 3
        { received := false, createCheckpoint := false, stopSimulation := false }
        5 stC1).seqCheckpointPeriod = [{ start := 5, stop := 5, period := 1 }] ∧
    containsStep (checkSignals 3
        { received := false, createCheckpoint := false, stopSimulation := false }
        5 stC1).seqCheckpointPeriod 5 = true ∧
    checkpointDue (checkSignals 3
        { received := false, createCheckpoint := false, stopSimulation := false }
        5 stC1) 5 = false := by decide

/-- Claim C2 (amended): applying a stop decision sets the run target to the agreed
maximum over all ranks' proposals (`signal step + 1`); provided every rank
handled the signal strictly below the current run target, this value is less
than or equal to the target before, and iterating such rounds never raises
the target above its initial value. -/
theorem runTarget_nonincreasing_under_bounded_signals :
    (∀ (st : SimState) (c : Nat) (steps : List Nat),
      st.signalStopSimulation = true →
      st.handleSignalAtStep = c → c ≠ 0 →
      (∀ s ∈ steps, s < st.runSteps) →
      (checkSignals c
          { received := false, createCheckpoint := false, stopSimulation := false }
          (stopRound steps) st).runSteps = stopRound steps ∧
      (checkSignals c
          { received := false, createCheckpoint := false, stopSimulation := false }
          (stopRound steps) st).runSteps ≤ st.runSteps) ∧
    (∀ (r : Nat) (rounds : List (List Nat)),
      validRounds r rounds → runRounds r rounds ≤ r) := by
  constructor
  · intro st c steps hstop hat hc hbound
    have hround : stopRound steps ≤ st.runSteps := by
      refine roundMax_le ?_
      intro x hx
      rcases List.mem_map.mp hx with ⟨s, hs, rfl⟩
      exact hbound s hs
    rw [checkSignals_applies rfl hc hat, applySignalActions_runSteps hstop]
    exact ⟨rfl, hround⟩
  · intro r rounds
    induction rounds generalizing r with
    | nil => intro _; exact Nat.le_refl r
    | cons round rest ih =>
      intro hv
      have h1 : stopRound round ≤ r := by
        refine roundMax_le ?_
        intro x hx
        rcases List.mem_map.mp hx with ⟨s, hs, rfl⟩
        exact hv.1 s hs
      exact Nat.le_trans (ih (stopRound round) hv.2) h1

/-- Claim C2 is false as stated: with signal-handling steps 1 and 2 — both within
the loop, whose checkSignals call sites reach steps up to the run target 2 —
the agreed maximum is 3, and applying the stop decision raises the run
target from 2 to 3. -/
theorem runTarget_increase_counterexample :
    ([1, 2].all fun s => decide (s ≤ stC2.runSteps)) = true ∧
    stC2.runSteps = 2 ∧
    stopRound [1, 2] = 3 ∧
    (checkSignals 2
        { received := false, createCheckpoint := false, stopSimulation := false }
        (stopRound [1, 2]) stC2).runSteps = 3 ∧
    ¬((checkSignals 2
        { received := false, createCheckpoint := false, stopSimulation := false }
        (stopRound [1, 2]) stC2).runSteps ≤ stC2.runSteps) := by decide

/-- Claim C3 (amended): when a checkpoint completes, only the root rank appends to
the checkpoint master log, and non-root ranks leave the log untouched; the
checkpoint counter, however, is incremented on every rank, root or not. -/
theorem checkpointLog_root_only :
    ∀ (st : SimState) (c : Nat),
      checkpointDue st c = true →
      (st.isRoot = false →
        dumpOneStep c st = Except.ok
          { st with
            dirCreated := if st.numCheckpoints = 0 then st.dirCreated + 1 else st.dirCreated
            numCheckpoints := st.numCheckpoints + 1 }) ∧
      (st.isRoot = true → st.logWritable = true →
        dumpOneStep c st = Except.ok
          { st with
            dirCreated := if st.numCheckpoints = 0 then st.dirCreated + 1 else st.dirCreated
            masterLog := st.masterLog ++ [c]
            numCheckpoints := st.numCheckpoints + 1 }) := by
  intro st c hdue
  constructor
  · intro hroot
    unfold dumpOneStep
    rw [if_pos hdue]
    by_cases h0 : st.numCheckpoints = 0 <;> simp [h0, hroot]
  · intro hroot hw
    unfold dumpOneStep
    rw [if_pos hdue]
    by_cases h0 : st.numCheckpoints = 0 <;> simp [h0, hroot, writeCheckpointStep, hw]

/-- Claim C3 is false as stated: on a non-root rank the checkpoint sequence leaves
the master log unchanged but still increments the checkpoint counter — the
increment sits outside the `getGlobalRank() == 0` guard. -/
theorem nonroot_count_increment_counterexample :
    stC3.isRoot = false ∧
    dumpOneStep 5 stC3 = Except.ok { stC3 with numCheckpoints := 2 } ∧
    ({ stC3 with numCheckpoints := 2 } : SimState).masterLog = stC3.masterLog ∧
    ¬(({ stC3 with numCheckpoints := 2 } : SimState).numCheckpoints
        = stC3.numCheckpoints) :=
  ⟨rfl, rfl, rfl, by decide⟩

/-- Claim C6: over an entire run the checkpoint counter never decreases; starting
from a fresh run (no checkpoints yet, no directory), the counter ends equal
to the number of steps at which a checkpoint completed — exactly one
increment per checkpointed step — and the checkpoint directory is created
exactly once when any checkpoint completes, and never otherwise. -/
theorem checkpoint_dir_once_count_monotone :
    (∀ (steps : List Nat) (st st₁ : SimState),
      st.logWritable = true →
      runDump steps st = Except.ok st₁ →
      st.numCheckpoints ≤ st₁.numCheckpoints) ∧
    (∀ (steps : List Nat) (st st₁ : SimState),
      st.logWritable = true → st.numCheckpoints = 0 → st.dirCreated = 0 →
      runDump steps st = Except.ok st₁ →
      st₁.numCheckpoints = steps.countP (fun c => checkpointDue st c) ∧
      st₁.dirCreated
        = (if 0 < steps.countP (fun c => checkpointDue st c) then 1 else 0)) := by
  constructor
  · intro steps st st₁ hw hrun
    rw [runDump_spec steps st hw] at hrun
    cases hrun
    exact Nat.le_add_right _ _
  · intro steps st st₁ hw h0 hd hrun
    rw [runDump_spec steps st hw] at hrun
    cases hrun
    refine ⟨by rw [h0]; exact Nat.zero_add _, ?_⟩
    rw [h0, hd]
    by_cases hpos : 0 < steps.countP (fun c => checkpointDue st c) <;>
      simp [hpos]

/-- Claim C8: appending a completed checkpoint step to the master log fails exactly
when the file cannot be opened for writing; on the root rank a due checkpoint
then turns into an error of the whole checkpoint sequence, and that error
aborts the remaining run. -/
theorem checkpoint_write_failure_fatal :
    ∀ (st : SimState) (c : Nat),
      ((∃ e, writeCheckpointStep c st = Except.error e) ↔ st.logWritable = false) ∧
      (checkpointDue st c = true → st.isRoot = true →
        ((∃ e, dumpOneStep c st = Except.error e) ↔ st.logWritable = false)) ∧
      (checkpointDue st c = true → st.isRoot = true → st.logWritable = false →
        ∀ rest : List Nat,
          runDump (c :: rest) st
            = Except.error "Failed to write checkpoint master file") := by
  intro st c
  refine ⟨?_, ?_, ?_⟩
  · cases hw : st.logWritable <;> simp [writeCheckpointStep, hw]
  · intro hdue hroot
    cases hw : st.logWritable with
    | true =>
      rw [dumpOneStep_due hdue hw]
      simp
    | false =>
      unfold dumpOneStep
      rw [if_pos hdue]
      by_cases h0 : st.numCheckpoints = 0 <;>
        simp [h0, hroot, writeCheckpointStep, hw]
  · intro hdue hroot hw rest
    have hstep : dumpOneStep c st
        = Except.error "Failed to write checkpoint master file" := by
      unfold dumpOneStep
      rw [if_pos hdue]
      by_cases h0 : st.numCheckpoints = 0 <;>
        simp [h0, hroot, writeCheckpointStep, hw]
    rw [runDump, hstep]

/-- Claim C9: the progress-report stride produced by `calcProgress` is always at
least 1 — an out-of-range percentage is clamped to 100 and a zero raw stride
is raised to 1 — so the `currentStep % showProgressAnyStep` in the
`dumpTimes` condition never divides by zero. -/
theorem progress_stride_positive :
    ∀ (progress runSteps : Nat),
      1 ≤ calcProgress progress runSteps ∧
      ((progress = 0 ∨ 100 < progress) → clampProgress progress = 100) ∧
      (∀ raw, 1 ≤ fixupStride raw) ∧
      (∀ currentStep output,
        dumpTimesPrints output progress (calcProgress progress runSteps) currentStep = true →
        currentStep % calcProgress progress runSteps = 0 ∧
        0 < calcProgress progress runSteps) := by
  intro progress runSteps
  have hfix : ∀ raw, 1 ≤ fixupStride raw := by
    intro raw
    unfold fixupStride
    split <;> omega
  refine ⟨hfix _, ?_, hfix, ?_⟩
  · intro h
    unfold clampProgress
    rw [if_pos h]
  · intro currentStep output h
    refine ⟨?_, hfix _⟩
    simp only [dumpTimesPrints, Bool.and_eq_true, decide_eq_true_eq] at h
    exact h.2

/-- Claim C7: reading the checkpoint master log yields the empty sequence (and no
warning) when the file does not exist; a fully well-formed file reads back
its recorded steps in file order with no warnings; and a malformed line
between two valid ones is skipped with one warning, yielding exactly the two
valid entries. -/
theorem read_master_file_tolerant :
    readCheckpointMasterFile none = ([], 0) ∧
    (∀ (lines : List String) (xs : List Nat),
      List.Forall₂ (fun l x => parseUInt32 l = some x) lines xs →
      readCheckpointMasterFile (some lines) = (xs, 0)) ∧
    (∀ (a bad b : String) (x y : Nat),
      parseUInt32 a = some x → parseUInt32 bad = none → bad.isEmpty = false →
      parseUInt32 b = some y →
      readCheckpointMasterFile (some [a, bad, b]) = ([x, y], 1)) := by
  refine ⟨rfl, ?_, ?_⟩
  · intro lines xs hall
    induction hall with
    | nil => rfl
    | cons hlx _ ih =>
      rw [readCheckpointMasterFile] at ih ⊢
      rw [readLines, ih, if_neg, hlx]
      rw [parseUInt32_nonempty hlx]
      simp
  · intro a bad b x y ha hbad hbe hb
    rw [readCheckpointMasterFile, readLines, readLines, readLines, readLines]
    rw [parseUInt32_nonempty ha, parseUInt32_nonempty hb]
    simp [ha, hb, hbad, hbe]

/-- Claim C10: when reading the master log, an empty line contributes neither an
entry nor a warning (unlike a malformed non-empty line, which warns), so the
entries are exactly the parseable non-empty lines in file order and the
warning count is the number of unparseable non-empty lines. -/
theorem read_master_skips_empty_silently :
    (∀ lines : List String,
      readCheckpointMasterFile (some lines)
        = ((lines.filter (fun l => !l.isEmpty)).filterMap parseUInt32,
           lines.countP (fun l => !l.isEmpty && (parseUInt32 l).isNone))) ∧
    (∀ rest : List String, readLines ("" :: rest) = readLines rest) := by
  have hmain : ∀ lines : List String,
      readLines lines
        = ((lines.filter (fun l => !l.isEmpty)).filterMap parseUInt32,
           lines.countP (fun l => !l.isEmpty && (parseUInt32 l).isNone)) := by
    intro lines
    induction lines with
    | nil => rfl
    | cons l rest ih =>
      rw [readLines, ih]
      cases hE : l.isEmpty with
      | true => simp [List.filter_cons, List.countP_cons, hE]
      | false =>
        cases hp : parseUInt32 l with
        | some n => simp [List.filter_cons, List.filterMap_cons, List.countP_cons, hE, hp]
        | none => simp [List.filter_cons, List.filterMap_cons, List.countP_cons, hE, hp]
  refine ⟨fun lines => hmain lines, ?_⟩
  intro rest
  rw [readLines]
  rw [if_pos (show ("".isEmpty : Bool) = true from rfl)]

/-- Claim C1 witness: with the non-empty period "3" and an appended interval at
the agreed step 7, step 7 becomes due and the previously due step 3 stays
due. -/
theorem signalCheckpoint_due_after_append_witness :
    checkpointDue
        (checkSignals 4
          { received := false, createCheckpoint := false, stopSimulation := false }
          7 { sampleState with signalCreateCheckpoint := true, handleSignalAtStep := 4 })
        7 = true ∧
    checkpointDue
        (checkSignals 4
          { received := false, createCheckpoint := false, stopSimulation := false }
          7 { sampleState with signalCreateCheckpoint := true, handleSignalAtStep := 4 })
        3 = true :=
  ⟨(signalCheckpoint_due_after_append
      { sampleState with signalCreateCheckpoint := true, handleSignalAtStep := 4 }
      4 7 rfl rfl rfl (by decide)).1,
   (signalCheckpoint_due_after_append
      { sampleState with signalCreateCheckpoint := true, handleSignalAtStep := 4 }
      4 7 rfl rfl rfl (by decide)).2 3 (by decide)⟩

/-- Claim C2 witness: a stop round with handling steps 2 and 3, both below the
target 10, lowers the target; iterating the rounds [2,3] then [1] also stays
at or below 10. -/
theorem runTarget_nonincreasing_witness :
    (checkSignals 4
        { received := false, createCheckpoint := false, stopSimulation := false }
        (stopRound [2, 3])
        { sampleState with signalStopSimulation := true, handleSignalAtStep := 4 }).runSteps
      ≤ ({ sampleState with signalStopSimulation := true, handleSignalAtStep := 4 } : SimState).runSteps ∧
    runRounds 10 [[2, 3], [1]] ≤ 10 :=
  ⟨(runTarget_nonincreasing_under_bounded_signals.1
      { sampleState with signalStopSimulation := true, handleSignalAtStep := 4 }
      4 [2, 3] rfl rfl (by decide) (by decide)).2,
   runTarget_nonincreasing_under_bounded_signals.2 10 [[2, 3], [1]]
      ⟨by decide, by decide, trivial⟩⟩

/-- Claim C3 witness: on a non-root rank the due step 0 completes without touching
the master log while the counter goes up by one. -/
theorem checkpointLog_root_only_witness :
    dumpOneStep 0 { sampleState with isRoot := false }
      = Except.ok
        { { sampleState with isRoot := false } with
          dirCreated :=
            if ({ sampleState with isRoot := false } : SimState).numCheckpoints = 0
            then ({ sampleState with isRoot := false } : SimState).dirCreated + 1
            else ({ sampleState with isRoot := false } : SimState).dirCreated
          numCheckpoints :=
            ({ sampleState with isRoot := false } : SimState).numCheckpoints + 1 } :=
  (checkpointLog_root_only { sampleState with isRoot := false } 0 (by decide)).1 rfl

/-- Claim C4 witness: a signal handled at step 4 proposes apply-at 5 and launches
the reduction; applying at step 5 with proposals [5, 3] truncates the target
to their maximum. -/
theorem proposal_plus_one_witness :
    (checkSignals 4
        { received := true, createCheckpoint := true, stopSimulation := true }
        9 sampleState).handleSignalAtStep = 5 ∧
    (checkSignals 5
        { received := false, createCheckpoint := false, stopSimulation := false }
        (roundMax [5, 3])
        { sampleState with handleSignalAtStep := 5, signalStopSimulation := true }).runSteps
      = roundMax [5, 3] :=
  ⟨(proposal_plus_one_and_max_reduction sampleState 4
      { received := true, createCheckpoint := true, stopSimulation := true }
      9 (by decide) rfl).1.1,
   (proposal_plus_one_and_max_reduction sampleState 4
      { received := true, createCheckpoint := true, stopSimulation := true }
      9 (by decide) rfl).2.2.1
      { sampleState with handleSignalAtStep := 5, signalStopSimulation := true }
      [5, 3] rfl rfl⟩

/-- Claim C5 witness: at step 3 with a decision still scheduled for step 5,
handling is not permitted and a pending signal changes nothing. -/
theorem signal_race_drop_silent_witness :
    handleSignalsAllowed { sampleState with handleSignalAtStep := 5 } 3 = false ∧
    checkSignals 3 { received := true, createCheckpoint := true, stopSimulation := false }
        9 { sampleState with handleSignalAtStep := 5 }
      = checkSignals 3
          { received := false, createCheckpoint := false, stopSimulation := false }
          9 { sampleState with handleSignalAtStep := 5 } :=
  ⟨by decide,
   (signal_race_drop_silent { sampleState with handleSignalAtStep := 5 } 3
      { received := true, createCheckpoint := true, stopSimulation := false } 9).2
      (by decide)⟩

/-- Claim C6 witness: running steps 0..3 of the sample run checkpoints at 0 and 3:
the counter ends at 2 and the directory was created exactly once. -/
theorem checkpoint_dir_once_witness :
    ({ sampleState with dirCreated := 1, masterLog := [0, 3], numCheckpoints := 2 }
        : SimState).numCheckpoints
      = List.countP (fun c => checkpointDue sampleState c) [0, 1, 2, 3] ∧
    ({ sampleState with dirCreated := 1, masterLog := [0, 3], numCheckpoints := 2 }
        : SimState).dirCreated
      = (if 0 < List.countP (fun c => checkpointDue sampleState c) [0, 1, 2, 3]
         then 1 else 0) :=
  (checkpoint_dir_once_count_monotone.2 [0, 1, 2, 3] sampleState
    { sampleState with dirCreated := 1, masterLog := [0, 3], numCheckpoints := 2 }
    rfl rfl rfl rfl)

/-- Claim C7 witness: the log [5, 12, 20] reads back in order with no warning, and
a corrupted middle line yields the two valid entries plus one warning. -/
theorem read_master_file_tolerant_witness :
    readCheckpointMasterFile (some ["5", "12", "20"]) = ([5, 12, 20], 0) ∧
    readCheckpointMasterFile (some ["5", "xx", "20"]) = ([5, 20], 1) :=
  ⟨read_master_file_tolerant.2.1 ["5", "12", "20"] [5, 12, 20]
      (.cons (by decide) (.cons (by decide) (.cons (by decide) .nil))),
   read_master_file_tolerant.2.2 "5" "xx" "20" 5 20
      (by decide) (by decide) rfl (by decide)⟩

/-- Claim C8 witness: with an unwritable log, the due checkpoint at step 0 on the
root rank aborts the whole remaining run with the write error. -/
theorem checkpoint_write_failure_fatal_witness :
    runDump [0, 1] { sampleState with logWritable := false }
      = Except.error "Failed to write checkpoint master file" :=
  (checkpoint_write_failure_fatal { sampleState with logWritable := false } 0).2.2
    (by decide) rfl rfl [1]

/-- Claim C9 witness: percentage 0 is clamped to 100 and the stride for a 7-step
run is still at least 1. -/
theorem progress_stride_positive_witness :
    1 ≤ calcProgress 0 7 ∧ clampProgress 0 = 100 :=
  ⟨(progress_stride_positive 0 7).1,
   (progress_stride_positive 0 7).2.1 (Or.inl rfl)⟩

end PMacc
